import Mathlib

/-!
Verification of the client-side state logic of the bookmark manager
(`src/app/page.tsx`): the remote-collection mirror, the derived
filter/sort view, the realtime change handlers, and the mutation
handlers (`handleSubmit`, `handleDelete`, `fetchBookmarks`).

Modelling conventions:
* JavaScript strings are Lean `String`; character-level operations
  (`toLowerCase`, `trim`, `includes`) are modelled on `List Char` via
  `.data`, since the claims only depend on their substring/emptiness
  behaviour.
* `created_at` is stored in the database as a timestamp string and is
  only ever consumed through `new Date(created_at).getTime()`; we model
  it directly as that epoch-millisecond value (a `Nat`).
* `title.localeCompare` is locale-dependent; it is modelled as an
  abstract comparator parameter `localeCmp : String → String → Int`
  (negative/zero/positive like the JavaScript comparator).
* JavaScript `Array.prototype.sort` with a consistent comparator is a
  stable sort; it is modelled by `List.mergeSort` on the comparator's
  associated boolean order.
* Asynchronous remote calls are modelled by passing their outcome as an
  explicit argument (`writeOk`, `FetchResult`).
-/

namespace BookmarkApp

/-- `Bookmark` record (the `Bookmark` type of `page.tsx`): `description`
and `tag` are optional columns; `created_at` is modelled as the epoch
milliseconds of the stored timestamp. -/
structure Bookmark where
  id : String
  title : String
  url : String
  description : Option String
  tag : Option String
  created_at : Nat
deriving DecidableEq

/-- JavaScript `s.toLowerCase()` at character granularity. -/
def jsLower (s : String) : List Char := s.data.map Char.toLower

/-- JavaScript `s.trim()`: strip leading and trailing whitespace. -/
def jsTrim (s : String) : List Char :=
  ((s.data.dropWhile Char.isWhitespace).reverse.dropWhile Char.isWhitespace).reverse

/-- JavaScript `hay.includes(need)`: contiguous-substring test. -/
def jsIncludes (hay need : List Char) : Bool := decide (need <:+: hay)

/-- The search predicate of the filter effect (lines 139-143): the
query `q` is already lower-cased; a record matches when its title, URL
or (present) description contains `q` case-insensitively.  A missing
description contributes `undefined` (falsy), modelled by `.getD false`. -/
def searchMatches (q : List Char) (b : Bookmark) : Bool :=
  jsIncludes (jsLower b.title) q || jsIncludes (jsLower b.url) q ||
    (b.description.map (fun d => jsIncludes (jsLower d) q)).getD false

/-- Lines 137-144: when the search string is truthy (non-empty), retain
only records matching the lower-cased query. -/
def applySearch (search : String) (result : List Bookmark) : List Bookmark :=
  if search = "" then result else result.filter (searchMatches (jsLower search))

/-- Line 145: when the active tag is not the sentinel `"All"`, retain
only records whose tag equals it (`b.tag === activeTag`; an absent tag
never equals a string). -/
def applyTag (activeTag : String) (result : List Bookmark) : List Bookmark :=
  if activeTag = "All" then result else result.filter (fun b => b.tag == some activeTag)

/-- The three sort keys of the `sortBy` state (line 61). -/
inductive SortKey
  | newest
  | oldest
  | alpha
deriving DecidableEq

/-- Lines 146-147: `"oldest"` sorts by `new Date(created_at).getTime()`
ascending, `"alpha"` sorts by `a.title.localeCompare(b.title)`, and
`"newest"` applies no sort. -/
def sortStep (localeCmp : String → String → Int) (sortBy : SortKey)
    (result : List Bookmark) : List Bookmark :=
  match sortBy with
  | .oldest => result.mergeSort (fun a b => decide (a.created_at ≤ b.created_at))
  | .alpha => result.mergeSort (fun a b => decide (localeCmp a.title b.title ≤ 0))
  | .newest => result

/-- The filter/sort effect (lines 135-149): shallow-copy the mirror,
apply the search filter, the tag filter, then the sort step; the result
is stored in the `filtered` state. -/
def computeFiltered (localeCmp : String → String → Int) (bookmarks : List Bookmark)
    (search activeTag : String) (sortBy : SortKey) : List Bookmark :=
  sortStep localeCmp sortBy (applyTag activeTag (applySearch search bookmarks))

/-- A realtime `postgres_changes` payload (lines 121-128): an INSERT or
UPDATE carries the new row, a DELETE carries the old row's id. -/
inductive ChangeEvent
  | insertEv (record : Bookmark)
  | updateEv (record : Bookmark)
  | deleteEv (oldId : String)

/-- The realtime subscription handler (lines 122-128): INSERT prepends
the new row, DELETE filters out the old id, UPDATE maps the matching id
to the new row. -/
def applyChange (prev : List Bookmark) : ChangeEvent → List Bookmark
  | .insertEv r => r :: prev
  | .updateEv r => prev.map (fun b => if b.id == r.id then r else b)
  | .deleteEv oldId => prev.filter (fun b => b.id != oldId)

/-- The row order delivered by the storage collaborator for
`.order("created_at", { ascending: false })` (line 110): the backend's
rows sorted by creation time descending. -/
def fetchedOrder (rows : List Bookmark) : List Bookmark :=
  rows.mergeSort (fun a b => decide (b.created_at ≤ a.created_at))

/-- Outcome of the remote select in `fetchBookmarks`: either data
(possibly `null`, hence `Option`) or an error. -/
inductive FetchResult
  | ok (data : Option (List Bookmark))
  | err

/-- `fetchBookmarks` (lines 105-112): a falsy `userIdRef.current`
(`null` or `""`) returns early; on a successful select the mirror is
replaced by `data || []`; on error the mirror is left unchanged. -/
def fetchBookmarks (userId : Option String) (res : FetchResult)
    (bookmarks : List Bookmark) : List Bookmark :=
  match userId with
  | none => bookmarks
  | some u =>
    if u = "" then bookmarks
    else
      match res with
      | .ok data => data.getD []
      | .err => bookmarks

/-- Observable outcome of one `handleDelete` run: the mirror right
after the optimistic removal, the dialog state, the toasts shown, and
the mirror after the remote delete (and possible refetch) settles. -/
structure DeleteRun where
  optimisticMirror : List Bookmark
  deleteTarget : Option String
  toasts : List String
  finalMirror : List Bookmark
deriving DecidableEq

/-- `handleDelete` (lines 180-186): optimistically filter the id out of
the mirror, close the confirmation dialog, toast "Bookmark deleted";
then issue the remote delete; if it errors, toast and rerun
`fetchBookmarks` (whose outcome is the `refetch` argument). -/
def handleDelete (bookmarks : List Bookmark) (id : String) (deleteOk : Bool)
    (userId : Option String) (refetch : FetchResult) : DeleteRun :=
  let optimistic := bookmarks.filter (fun b => b.id != id)
  if deleteOk then
    { optimisticMirror := optimistic
      deleteTarget := none
      toasts := ["Bookmark deleted"]
      finalMirror := optimistic }
  else
    { optimisticMirror := optimistic
      deleteTarget := none
      toasts := ["Bookmark deleted", "Delete failed — restoring..."]
      finalMirror := fetchBookmarks userId refetch optimistic }

/-- The component state handleSubmit touches: the mirror plus the form
fields, edit target, submitting flag and panel visibility. -/
structure PageState where
  bookmarks : List Bookmark
  title : String
  url : String
  description : String
  tag : String
  editId : Option String
  submitting : Bool
  panelOpen : Bool
deriving DecidableEq

/-- A remote write issued by `handleSubmit`: the insert payload of line
173 or the update payload of line 169, carrying the raw field values. -/
inductive RemoteWrite
  | insertRow (title url description tag user_id : String)
  | updateRow (id title url description tag : String)
deriving DecidableEq

/-- Observable outcome of one `handleSubmit` run: the remote write
issued (if any), the value of the `submitting` flag while any such call
was awaited, the toasts shown, and the final state. -/
structure SubmitRun where
  remoteCall : Option RemoteWrite
  submittingDuringCall : Bool
  toasts : List String
  final : PageState
deriving DecidableEq

/-- `handleSubmit` (lines 165-178): return early when the trimmed title
or URL is empty (no remote call); otherwise set `submitting`, issue the
update (when `editId` is set) or the insert, on success toast / reset
the form / close the panel, on failure toast only, and clear
`submitting`.  Note the handler itself never reads `submitting`. -/
def handleSubmit (s : PageState) (user_id : String) (writeOk : Bool) : SubmitRun :=
  if (jsTrim s.title).isEmpty || (jsTrim s.url).isEmpty then
    { remoteCall := none
      submittingDuringCall := s.submitting
      toasts := []
      final := s }
  else
    match s.editId with
    | some eid =>
      if writeOk then
        { remoteCall := some (.updateRow eid s.title s.url s.description s.tag)
          submittingDuringCall := true
          toasts := ["Bookmark updated ✦"]
          final := { s with title := "", url := "", description := "", tag := "",
                            editId := none, panelOpen := false, submitting := false } }
      else
        { remoteCall := some (.updateRow eid s.title s.url s.description s.tag)
          submittingDuringCall := true
          toasts := ["Failed to update — try again"]
          final := { s with submitting := false } }
    | none =>
      if writeOk then
        { remoteCall := some (.insertRow s.title s.url s.description s.tag user_id)
          submittingDuringCall := true
          toasts := ["Bookmark saved ✦"]
          final := { s with title := "", url := "", description := "", tag := "",
                            editId := none, panelOpen := false, submitting := false } }
      else
        { remoteCall := some (.insertRow s.title s.url s.description s.tag user_id)
          submittingDuringCall := true
          toasts := ["Failed to save — try again"]
          final := { s with submitting := false } }

/-- The submit button's `disabled` expression (line 494):
`!title.trim() || !url.trim() || submitting`. -/
def submitDisabled (s : PageState) : Bool :=
  (jsTrim s.title).isEmpty || (jsTrim s.url).isEmpty || s.submitting

/-- A run in which no submission is started. -/
def noSubmit (s : PageState) : SubmitRun :=
  { remoteCall := none
    submittingDuringCall := s.submitting
    toasts := []
    final := s }

/-- Clicking the submit button (lines 494-495): a disabled button does
nothing; otherwise the click runs `handleSubmit`. -/
def submitButtonClick (s : PageState) (user_id : String) (writeOk : Bool) : SubmitRun :=
  if submitDisabled s then noSubmit s else handleSubmit s user_id writeOk

/-- The URL input's `onKeyDown` (line 475):
`(e) => e.key === "Enter" && handleSubmit()` — it runs `handleSubmit`
unconditionally on Enter, with no gating. -/
def urlInputKeyDown (key : String) (s : PageState) (user_id : String)
    (writeOk : Bool) : SubmitRun :=
  if key = "Enter" then handleSubmit s user_id writeOk else noSubmit s

/-! Concrete records and states used by the scenario conjuncts and the
closed witness instances. -/

/-- A record created at time 100 with tag `Dev` and no note. -/
def bm1 : Bookmark := ⟨"1", "A", "https://a.example", none, some "Dev", 100⟩

/-- A record created at time 200 with tag `Design` and a note. -/
def bm2 : Bookmark := ⟨"2", "B", "https://b.example", some "note b", some "Design", 200⟩

/-- A record created at time 50 (earlier than `bm1` and `bm2`), no tag. -/
def bm3 : Bookmark := ⟨"3", "C", "https://c.example", none, none, 50⟩

/-- A trivial (constant-tie) locale comparator, used as a concrete
instance of the abstract `localeCompare` parameter. -/
def cmpZero : String → String → Int := fun _ _ => 0

/-- A state with a submission in flight (`submitting = true`) and a
valid form. -/
def inflightState : PageState :=
  { bookmarks := []
    title := "Example"
    url := "https://example.com"
    description := ""
    tag := ""
    editId := none
    submitting := true
    panelOpen := true }

/-- A state whose title is empty (validation must block submission). -/
def emptyTitleState : PageState :=
  { bookmarks := []
    title := ""
    url := "https://example.org"
    description := ""
    tag := ""
    editId := none
    submitting := false
    panelOpen := true }

/-- A state whose title and URL carry leading/trailing whitespace. -/
def paddedState : PageState :=
  { bookmarks := []
    title := "  Padded Title "
    url := " https://example.com "
    description := "note"
    tag := "Dev"
    editId := none
    submitting := false
    panelOpen := true }

end BookmarkApp

namespace BookmarkApp

/-- C1: Immediately after `handleDelete` is invoked on a record `X` of
the mirror, every record of the optimistic mirror has a different id
than `X` (so `X` is absent), and this optimistic mirror does not depend
on the remote delete's outcome (the removal precedes the remote
completion); if the remote delete fails, the full refetch replaces the
mirror wholesale with the backend's authoritative contents rather than
re-inserting the single removed record. -/
theorem optimistic_delete_removes_then_refetches (mirror : List Bookmark) (X : Bookmark)
    (hX : X ∈ mirror) (deleteOk : Bool) (u : String) (hu : u ≠ "")
    (backend : List Bookmark) :
    (∀ b ∈ (handleDelete mirror X.id deleteOk (some u)
        (.ok (some (fetchedOrder backend)))).optimisticMirror, b.id ≠ X.id) ∧
    X ∉ (handleDelete mirror X.id deleteOk (some u)
        (.ok (some (fetchedOrder backend)))).optimisticMirror ∧
    (∀ (ok₁ ok₂ : Bool) (uid : Option String) (rf : FetchResult),
      (handleDelete mirror X.id ok₁ uid rf).optimisticMirror =
        (handleDelete mirror X.id ok₂ uid rf).optimisticMirror) ∧
    (deleteOk = false →
      (handleDelete mirror X.id deleteOk (some u)
        (.ok (some (fetchedOrder backend)))).finalMirror = fetchedOrder backend) := by
  have hopt : ∀ (ok : Bool) (uid : Option String) (rf : FetchResult),
      (handleDelete mirror X.id ok uid rf).optimisticMirror =
        mirror.filter (fun b => b.id != X.id) := by
    intro ok uid rf
    cases ok <;> rfl
  have habs : ∀ b ∈ mirror.filter (fun b => b.id != X.id), b.id ≠ X.id := by
    intro b hb
    have := (List.mem_filter.mp hb).2
    simpa using this
  refine ⟨?_, ?_, ?_, ?_⟩
  · intro b hb
    exact habs b (by rw [hopt] at hb; exact hb)
  · intro hmem
    rw [hopt] at hmem
    exact habs X hmem rfl
  · intro ok₁ ok₂ uid rf
    rw [hopt, hopt]
  · intro hfail
    subst hfail
    simp [handleDelete, fetchBookmarks, hu]

/-- C1 witness: the end-to-end scenario of §8 — `handleDelete` on id 2
with mirror `[bm2, bm1]`, failing remote delete, backend still holding
both records. -/
theorem optimistic_delete_removes_then_refetches_witness :
    bm2 ∈ [bm2, bm1] ∧ "user-1" ≠ "" ∧
    ((∀ b ∈ (handleDelete [bm2, bm1] bm2.id false (some "user-1")
        (.ok (some (fetchedOrder [bm2, bm1])))).optimisticMirror, b.id ≠ bm2.id) ∧
      bm2 ∉ (handleDelete [bm2, bm1] bm2.id false (some "user-1")
        (.ok (some (fetchedOrder [bm2, bm1])))).optimisticMirror ∧
      (∀ (ok₁ ok₂ : Bool) (uid : Option String) (rf : FetchResult),
        (handleDelete [bm2, bm1] bm2.id ok₁ uid rf).optimisticMirror =
          (handleDelete [bm2, bm1] bm2.id ok₂ uid rf).optimisticMirror) ∧
      (false = false →
        (handleDelete [bm2, bm1] bm2.id false (some "user-1")
          (.ok (some (fetchedOrder [bm2, bm1])))).finalMirror = fetchedOrder [bm2, bm1])) :=
  ⟨by decide, by decide,
    optimistic_delete_removes_then_refetches [bm2, bm1] bm2 (by decide) false "user-1"
      (by decide) [bm2, bm1]⟩

/-- C2: the filter stage of the derived view retains exactly the
records of the mirror whose title, URL, or note contains the query as a
case-insensitive substring (all of them when the query is empty) and,
when the active tag is not the sentinel `"All"`, whose tag equals it;
relative order is preserved (the result is a sublist of the mirror). -/
theorem derived_view_filters_exactly (R : List Bookmark) (Q T : String) :
    (∀ b, b ∈ applyTag T (applySearch Q R) ↔
      b ∈ R ∧ (Q = "" ∨ searchMatches (jsLower Q) b = true) ∧ (T = "All" ∨ b.tag = some T)) ∧
    (applyTag T (applySearch Q R)).Sublist R := by
  constructor
  · intro b
    unfold applyTag applySearch
    by_cases hQ : Q = "" <;> by_cases hT : T = "All" <;>
      simp [hQ, hT, List.mem_filter] <;> tauto
  · unfold applyTag applySearch
    by_cases hQ : Q = "" <;> by_cases hT : T = "All" <;> simp [hQ, hT]

/-- C3: the derived view under `"alpha"` is non-decreasing by the
locale title comparator, under `"oldest"` is non-decreasing by creation
timestamp, and under `"newest"` equals the filtered mirror order with
no sort applied — for every locale comparator whose associated order is
transitive and total (as a comparison function's is). -/
theorem derived_view_sorting (localeCmp : String → String → Int)
    (htrans : ∀ a b c : String, localeCmp a b ≤ 0 → localeCmp b c ≤ 0 → localeCmp a c ≤ 0)
    (htotal : ∀ a b : String, localeCmp a b ≤ 0 ∨ localeCmp b a ≤ 0)
    (R : List Bookmark) (Q T : String) :
    computeFiltered localeCmp R Q T .newest = applyTag T (applySearch Q R) ∧
    (computeFiltered localeCmp R Q T .oldest).Pairwise
      (fun a b => a.created_at ≤ b.created_at) ∧
    (computeFiltered localeCmp R Q T .alpha).Pairwise
      (fun a b => localeCmp a.title b.title ≤ 0) := by
  refine ⟨rfl, ?_, ?_⟩
  · have h := @List.sorted_mergeSort Bookmark
        (fun a b : Bookmark => decide (a.created_at ≤ b.created_at))
        (fun a b c hab hbc => by simp only [decide_eq_true_eq] at *; omega)
        (fun a b => by simp only [Bool.or_eq_true, decide_eq_true_eq]; omega)
        (applyTag T (applySearch Q R))
    exact h.imp (by intro a b hab; simpa using hab)
  · have h := @List.sorted_mergeSort Bookmark
        (fun a b : Bookmark => decide (localeCmp a.title b.title ≤ 0))
        (fun a b c hab hbc => by
          simp only [decide_eq_true_eq] at *
          exact htrans _ _ _ hab hbc)
        (fun a b => by
          simp only [Bool.or_eq_true, decide_eq_true_eq]
          exact htotal _ _)
        (applyTag T (applySearch Q R))
    exact h.imp (by intro a b hab; simpa using hab)

/-- C3 witness: the sorting theorem applied to the constant-tie
comparator `cmpZero` and the two-record mirror `[bm2, bm1]`. -/
theorem derived_view_sorting_witness :
    (∀ a b c : String, cmpZero a b ≤ 0 → cmpZero b c ≤ 0 → cmpZero a c ≤ 0) ∧
    (∀ a b : String, cmpZero a b ≤ 0 ∨ cmpZero b a ≤ 0) ∧
    (computeFiltered cmpZero [bm2, bm1] "" "All" .newest =
        applyTag "All" (applySearch "" [bm2, bm1]) ∧
      (computeFiltered cmpZero [bm2, bm1] "" "All" .oldest).Pairwise
        (fun a b => a.created_at ≤ b.created_at) ∧
      (computeFiltered cmpZero [bm2, bm1] "" "All" .alpha).Pairwise
        (fun a b => cmpZero a.title b.title ≤ 0)) :=
  ⟨fun _ _ _ _ _ => le_refl 0, fun _ _ => Or.inl (le_refl 0),
    derived_view_sorting cmpZero (fun _ _ _ _ _ => le_refl 0)
      (fun _ _ => Or.inl (le_refl 0)) [bm2, bm1] "" "All"⟩

/-- C4: an insert event prepends the new record to the front of the
mirror for every mirror state and record — no re-sort, so order is
arrival order; in particular the §8 scenario: inserting `bm3` (whose
creation time 50 predates both entries) into `[bm2, bm1]` yields
`[bm3, bm2, bm1]`. -/
theorem insert_event_prepends :
    (∀ (prev : List Bookmark) (r : Bookmark), applyChange prev (.insertEv r) = r :: prev) ∧
    applyChange [bm2, bm1] (.insertEv bm3) = [bm3, bm2, bm1] :=
  ⟨fun _ _ => rfl, rfl⟩

/-- C5: an update event carrying record `r` replaces in place: the
mirror's length is unchanged, and at every position the record is
unchanged when its id differs from `r`'s and is replaced by `r` when it
matches. -/
theorem update_event_in_place (prev : List Bookmark) (r : Bookmark) :
    (applyChange prev (.updateEv r)).length = prev.length ∧
    ∀ j : Nat, (applyChange prev (.updateEv r))[j]? =
      (prev[j]?).map (fun b => if b.id == r.id then r else b) := by
  refine ⟨by simp [applyChange], fun j => ?_⟩
  simp [applyChange, List.getElem?_map]

/-- C6: `handleSubmit` never modifies the mirror — in particular a
successful create submission does not insert the new record locally;
the insert-event notification is the sole mirror mutation for it. -/
theorem create_submission_leaves_mirror_unchanged (s : PageState) (uid : String)
    (writeOk : Bool) :
    (handleSubmit s uid writeOk).final.bookmarks = s.bookmarks := by
  unfold handleSubmit
  split
  · rfl
  · cases s.editId <;> cases writeOk <;> simp

/-- C7: when the trimmed title or trimmed URL is empty, `handleSubmit`
returns before issuing any remote write (state untouched) and the
submit button is disabled. -/
theorem empty_validation_blocks_submit (s : PageState) (uid : String) (writeOk : Bool)
    (h : jsTrim s.title = [] ∨ jsTrim s.url = []) :
    (handleSubmit s uid writeOk).remoteCall = none ∧
    (handleSubmit s uid writeOk).final = s ∧
    submitDisabled s = true := by
  rcases h with h | h <;>
    refine ⟨?_, ?_, ?_⟩ <;> simp [handleSubmit, submitDisabled, h]

/-- C7 witness: the §8 scenario — a create submitted with an empty
title issues no remote call and the submit button stays disabled. -/
theorem empty_validation_blocks_submit_witness :
    (jsTrim emptyTitleState.title = [] ∨ jsTrim emptyTitleState.url = []) ∧
    ((handleSubmit emptyTitleState "user-1" true).remoteCall = none ∧
      (handleSubmit emptyTitleState "user-1" true).final = emptyTitleState ∧
      submitDisabled emptyTitleState = true) :=
  ⟨Or.inl (by decide),
    empty_validation_blocks_submit emptyTitleState "user-1" true (Or.inl (by decide))⟩

/-- C8 counterexample: the claim that the submitting flag gates every
path that can trigger a submission is false — in `inflightState` a
submission is in flight (`submitting = true`), yet pressing Enter in
the URL input runs `handleSubmit` and issues a second remote insert. -/
theorem submitting_does_not_gate_enter_path :
    inflightState.submitting = true ∧
    (urlInputKeyDown "Enter" inflightState "user-1" true).remoteCall =
      some (.insertRow "Example" "https://example.com" "" "" "user-1") := by
  decide

/-- C8 (amended): the submitting flag is set for the entire duration of
any issued remote call and the submit button is disabled (a click is a
no-op) while the flag is set, but the Enter-key path on the URL input
is not gated: whenever validation passes it issues a remote call
regardless of the flag, so a second submission can start while a
previous one is in flight. -/
theorem submitting_gates_button_not_enter (s : PageState) (uid : String) (writeOk : Bool)
    (hsub : s.submitting = true) :
    submitDisabled s = true ∧
    submitButtonClick s uid writeOk = noSubmit s ∧
    (∀ (s' : PageState) (u' : String) (ok' : Bool),
      (handleSubmit s' u' ok').remoteCall.isSome = true →
      (handleSubmit s' u' ok').submittingDuringCall = true) ∧
    (jsTrim s.title ≠ [] → jsTrim s.url ≠ [] →
      (urlInputKeyDown "Enter" s uid writeOk).remoteCall.isSome = true) := by
  have hd : submitDisabled s = true := by simp [submitDisabled, hsub]
  refine ⟨hd, by simp [submitButtonClick, hd], ?_, ?_⟩
  · intro s' u' ok'
    unfold handleSubmit
    split
    · simp
    · cases s'.editId <;> cases ok' <;> simp
  · intro ht hu'
    have h1 : (jsTrim s.title).isEmpty = false := by simpa [List.isEmpty_iff] using ht
    have h2 : (jsTrim s.url).isEmpty = false := by simpa [List.isEmpty_iff] using hu'
    unfold urlInputKeyDown handleSubmit
    rw [if_pos rfl, h1, h2]
    cases s.editId <;> cases writeOk <;> simp

/-- C8 witness: the amended theorem applied to `inflightState`. -/
theorem submitting_gates_button_not_enter_witness :
    inflightState.submitting = true ∧
    (submitDisabled inflightState = true ∧
      submitButtonClick inflightState "user-1" true = noSubmit inflightState ∧
      (∀ (s' : PageState) (u' : String) (ok' : Bool),
        (handleSubmit s' u' ok').remoteCall.isSome = true →
        (handleSubmit s' u' ok').submittingDuringCall = true) ∧
      (jsTrim inflightState.title ≠ [] → jsTrim inflightState.url ≠ [] →
        (urlInputKeyDown "Enter" inflightState "user-1" true).remoteCall.isSome = true)) :=
  ⟨rfl, submitting_gates_button_not_enter inflightState "user-1" true rfl⟩

/-- C9: with a non-empty identity, a successful initial fetch replaces
the mirror wholesale with the backend's rows ordered by creation time
descending (this order is non-increasing in `created_at`), and a failed
fetch leaves the mirror at its previous value. -/
theorem fetch_replaces_or_leaves_mirror (u : String) (hu : u ≠ "")
    (mirror backend : List Bookmark) :
    fetchBookmarks (some u) (.ok (some (fetchedOrder backend))) mirror = fetchedOrder backend ∧
    (fetchedOrder backend).Pairwise (fun a b => b.created_at ≤ a.created_at) ∧
    fetchBookmarks (some u) .err mirror = mirror := by
  refine ⟨by simp [fetchBookmarks, hu], ?_, by simp [fetchBookmarks, hu]⟩
  have h := @List.sorted_mergeSort Bookmark
      (fun a b : Bookmark => decide (b.created_at ≤ a.created_at))
      (fun a b c hab hbc => by
        simp only [decide_eq_true_eq] at *; omega)
      (fun a b => by
        simp only [Bool.or_eq_true, decide_eq_true_eq]; omega)
      backend
  exact h.imp (by intro a b hab; simpa using hab)

/-- C9 witness: the fetch theorem applied with identity `"user-1"`,
previous mirror `[bm1]` and backend `[bm1, bm2]`. -/
theorem fetch_replaces_or_leaves_mirror_witness :
    "user-1" ≠ "" ∧
    (fetchBookmarks (some "user-1") (.ok (some (fetchedOrder [bm1, bm2]))) [bm1] =
        fetchedOrder [bm1, bm2] ∧
      (fetchedOrder [bm1, bm2]).Pairwise (fun a b => b.created_at ≤ a.created_at) ∧
      fetchBookmarks (some "user-1") .err [bm1] = [bm1]) :=
  ⟨by decide, fetch_replaces_or_leaves_mirror "user-1" (by decide) [bm1] [bm1, bm2]⟩

/-- C10: a submission that passes validation issues a write carrying
the title and URL exactly as entered — untrimmed — along with the note
and tag (and owner identity on inserts); trimming occurs only inside
the validation test. -/
theorem submit_carries_untrimmed_fields (s : PageState) (uid : String) (writeOk : Bool)
    (ht : jsTrim s.title ≠ []) (hu : jsTrim s.url ≠ []) :
    (handleSubmit s uid writeOk).remoteCall =
      some (match s.editId with
        | some eid => RemoteWrite.updateRow eid s.title s.url s.description s.tag
        | none => RemoteWrite.insertRow s.title s.url s.description s.tag uid) := by
  unfold handleSubmit
  have h1 : (jsTrim s.title).isEmpty = false := by simpa [List.isEmpty_iff] using ht
  have h2 : (jsTrim s.url).isEmpty = false := by simpa [List.isEmpty_iff] using hu
  rw [h1, h2]
  cases s.editId <;> cases writeOk <;> simp

/-- C10 witness: a create submission whose title and URL carry
leading/trailing whitespace issues a write carrying them verbatim. -/
theorem submit_carries_untrimmed_fields_witness :
    jsTrim paddedState.title ≠ [] ∧ jsTrim paddedState.url ≠ [] ∧
    (handleSubmit paddedState "user-1" true).remoteCall =
      some (match paddedState.editId with
        | some eid => RemoteWrite.updateRow eid paddedState.title paddedState.url
            paddedState.description paddedState.tag
        | none => RemoteWrite.insertRow paddedState.title paddedState.url
            paddedState.description paddedState.tag "user-1") :=
  ⟨by decide, by decide,
    submit_carries_untrimmed_fields paddedState "user-1" true (by decide) (by decide)⟩

end BookmarkApp
